import Mathlib

/-!
# AutoGLM-GUI agent core: shallow embedding and verification

This file embeds the agent execution loop and action protocol of the
AutoGLM-GUI repository in Lean 4 and proves properties of the embedding.

Embedded source files:
* `AutoGLM_GUI/agents/gemini/action_mapper.py` (tool-call → action mapping)
* `AutoGLM_GUI/agents/glm/async_agent.py` (GLM step logic, raw-response parsing)
* `AutoGLM_GUI/agents/gemini/async_agent.py` (Gemini step logic)
* `AutoGLM_GUI/agents/base/async_agent_base.py` (run controller / stream loop)
* `AutoGLM_GUI/dual_model/dual_agent.py` (dual-model coordinator)

External collaborators (device, LLM, action executor, DSL action parser) are
modelled as oracles: the step functions take their results as inputs, mirroring
the `try/except` structure of the Python code with `Except`.
-/

namespace AutoGLM

/-! ## Python values and argument dicts

Tool-call arguments arrive as a JSON-parsed Python dict.  We model the values
that can appear there: ints, floats (as exact rationals), strings, `None`, and
a catch-all for other shapes (lists/dicts/bools are only ever observed through
failed `isinstance` checks in the mapper, so one constructor suffices; its
`tag` remembers the Python type name used in error messages). -/

inductive PyVal where
  | vint (i : Int)
  | vfloat (q : ℚ)
  | vstr (s : String)
  | vnone
  | vother (tag : String)
  deriving DecidableEq, Repr

/-- A Python dict with string keys, as an association list (first binding wins,
matching dict semantics since JSON objects have unique keys). -/
abbrev PyDict := List (String × PyVal)

/-- `args.get(key)`: `None` both for a missing key and for a stored `None`. -/
def dictGet (args : PyDict) (key : String) : Option PyVal :=
  match args with
  | [] => none
  | (k, v) :: rest => if k = key then some v else dictGet rest key

/-- A single-quote character, built by code point to keep source text clean. -/
def sq : String := String.singleton (Char.ofNat 39)

/-- Python `repr` of a value, as far as the mapper error messages need it
(string escaping inside `repr` is not modelled; no claim depends on it). -/
def pyRepr : PyVal → String
  | .vint i => toString i
  | .vfloat q => toString q
  | .vstr s => sq ++ s ++ sq
  | .vnone => "None"
  | .vother tag => "<" ++ tag ++ ">"

/-- `type(val).__name__` for the modelled values. -/
def pyTypeName : PyVal → String
  | .vint _ => "int"
  | .vfloat _ => "float"
  | .vstr _ => "str"
  | .vnone => "NoneType"
  | .vother tag => tag

/-- Python `int()` applied to a float: truncation toward zero.  A rational in
lowest terms has a positive denominator, so `Int.div` (T-division) is exactly
rounding toward zero. -/
def pyTrunc (q : ℚ) : Int :=
  Int.tdiv q.num q.den

/-! ## Action dicts

`action_mapper.py` and the GLM fallback build plain dicts with a `_metadata`
discriminator.  We model exactly the keys those dicts can carry. -/

/-- The action dict produced by `tool_call_to_action` / the GLM parser
fallback.  Absent keys are `none`. -/
structure ActionDict where
  metadata : String
  action : Option String := none
  element : Option (List Int) := none
  start : Option (List Int) := none
  stop : Option (List Int) := none   -- the Python dict key "end"
  text : Option String := none
  app : Option String := none
  duration : Option PyVal := none
  message : Option PyVal := none
  deriving DecidableEq, Repr

/-- `{"_metadata": "finish", "message": m}`. -/
def finishDict (m : PyVal) : ActionDict :=
  { metadata := "finish", message := some m }

/-! ## `action_mapper.py` -/

/-- `_require_int(args, key)`: extract and validate an integer argument. -/
def require_int (args : PyDict) (key : String) : Except String Int :=
  match dictGet args key with
  | none => .error ("Missing required argument: " ++ sq ++ key ++ sq)
  | some .vnone => .error ("Missing required argument: " ++ sq ++ key ++ sq)
  | some (.vint i) => .ok i
  | some (.vfloat q) => .ok (pyTrunc q)
  | some v =>
      .error ("Expected number for " ++ sq ++ key ++ sq ++ ", got "
        ++ pyTypeName v ++ ": " ++ pyRepr v)

/-- `_require_str(args, key)`: extract and validate a string argument. -/
def require_str (args : PyDict) (key : String) : Except String String :=
  match dictGet args key with
  | none => .error ("Missing required argument: " ++ sq ++ key ++ sq)
  | some .vnone => .error ("Missing required argument: " ++ sq ++ key ++ sq)
  | some (.vstr s) => .ok s
  | some v =>
      .error ("Expected string for " ++ sq ++ key ++ sq ++ ", got "
        ++ pyTypeName v ++ ": " ++ pyRepr v)

/-- `_build_action(tool_name, args)`: build the action dict with validated
arguments; `.error` models a raised `ValueError`. -/
def build_action (tool_name : String) (args : PyDict) : Except String ActionDict :=
  if tool_name = "tap" then do
    let x ← require_int args "x"
    let y ← require_int args "y"
    .ok { metadata := "do", action := some "Tap", element := some [x, y] }
  else if tool_name = "double_tap" then do
    let x ← require_int args "x"
    let y ← require_int args "y"
    .ok { metadata := "do", action := some "Double Tap", element := some [x, y] }
  else if tool_name = "long_press" then do
    let x ← require_int args "x"
    let y ← require_int args "y"
    .ok { metadata := "do", action := some "Long Press", element := some [x, y] }
  else if tool_name = "swipe" then do
    let sx ← require_int args "start_x"
    let sy ← require_int args "start_y"
    let ex ← require_int args "end_x"
    let ey ← require_int args "end_y"
    .ok { metadata := "do", action := some "Swipe",
          start := some [sx, sy], stop := some [ex, ey] }
  else if tool_name = "type_text" then do
    let t ← require_str args "text"
    .ok { metadata := "do", action := some "Type", text := some t }
  else if tool_name = "launch_app" then do
    let a ← require_str args "app_name"
    .ok { metadata := "do", action := some "Launch", app := some a }
  else if tool_name = "back" then
    .ok { metadata := "do", action := some "Back" }
  else if tool_name = "home" then
    .ok { metadata := "do", action := some "Home" }
  else if tool_name = "wait" then
    .ok { metadata := "do", action := some "Wait",
          duration := some ((dictGet args "duration").getD (.vstr "1 seconds")) }
  else
    .ok (finishDict (.vstr ("Unknown tool: " ++ tool_name)))

/-- `tool_call_to_action(tool_name, arguments)`: total mapping from a model
tool call to an action dict; `_build_action` errors are caught and degraded to
a finish action. -/
def tool_call_to_action (tool_name : String) (arguments : PyDict) : ActionDict :=
  if tool_name = "finish" then
    finishDict ((dictGet arguments "message").getD (.vstr "Task completed"))
  else
    match build_action tool_name arguments with
    | .ok a => a
    | .error e => finishDict (.vstr ("Invalid tool call: " ++ e))

/-- The tool names `tool_call_to_action` recognises (every other name falls
through all branches of `_build_action` to the unknown-tool finish). -/
def knownTools : List String :=
  ["finish", "tap", "double_tap", "long_press", "swipe", "type_text",
   "launch_app", "back", "home", "wait"]

/-! ## String utilities

Python string operations (`in`, `split(marker, 1)`, `replace`, `strip`)
rebuilt by structural recursion on character lists, so that concrete inputs
evaluate inside the kernel. -/

/-- Does `s` start with `pat`? -/
def startsWithL : List Char → List Char → Bool
  | _, [] => true
  | [], _ :: _ => false
  | c :: cs, p :: ps => c == p && startsWithL cs ps

/-- Scan `s` for the first occurrence of the (nonempty) pattern `pat`:
`some (before, after)` on a hit, `none` when `pat` does not occur. -/
def findSplit : List Char → List Char → Option (List Char × List Char)
  | [], _ => none
  | c :: cs, pat =>
      if startsWithL (c :: cs) pat then some ([], (c :: cs).drop pat.length)
      else
        match findSplit cs pat with
        | some (pre, post) => some (c :: pre, post)
        | none => none

/-- `marker in content`, Python substring containment (for the nonempty
markers the parser scans for). -/
def containsSub (content marker : String) : Bool :=
  (findSplit content.data marker.data).isSome

/-- Python `content.split(marker, 1)`: the text before the first occurrence of
`marker` and everything after it. -/
def splitFirst (content marker : String) : String × String :=
  match findSplit content.data marker.data with
  | some (pre, post) => (String.mk pre, String.mk post)
  | none => (content, "")

/-- Replace every (non-overlapping, leftmost-first) occurrence of the
nonempty pattern `pat` by `rep`; `fuel` is the length of the scanned list. -/
def replaceAux (pat rep : List Char) : Nat → List Char → List Char
  | 0, s => s
  | fuel + 1, s =>
      match s with
      | [] => []
      | c :: cs =>
          if startsWithL (c :: cs) pat then
            rep ++ replaceAux pat rep fuel ((c :: cs).drop pat.length)
          else c :: replaceAux pat rep fuel cs

/-- Python `s.replace(pat, rep)` for nonempty `pat`. -/
def pyReplace (s pat rep : String) : String :=
  String.mk (replaceAux pat.data rep.data s.data.length s.data)

/-- The whitespace set of Python `str.strip()` (ASCII part). -/
def pyIsSpace (c : Char) : Bool :=
  c == ' ' || c == '\t' || c == '\n' || c == '\r'
    || c == Char.ofNat 11 || c == Char.ofNat 12

/-- Python `s.strip()`. -/
def pyStrip (s : String) : String :=
  String.mk (((s.data.dropWhile pyIsSpace).reverse.dropWhile pyIsSpace).reverse)

/-! ## `AsyncGLMAgent._parse_raw_response` -/

/-- `_parse_raw_response(content)` from `glm/async_agent.py`: extract
`(thinking, action)` from the raw model output. -/
def parse_raw_response (content : String) : String × String :=
  if containsSub content "finish(message=" then
    let p := splitFirst content "finish(message="
    (pyStrip p.1, "finish(message=" ++ p.2)
  else if containsSub content "do(action=" then
    let p := splitFirst content "do(action="
    (pyStrip p.1, "do(action=" ++ p.2)
  else if containsSub content "<answer>" then
    let p := splitFirst content "<answer>"
    (pyStrip ((pyReplace (pyReplace p.1 "<think>" "") "</think>" "")),
     pyStrip (pyReplace p.2 "</answer>" ""))
  else
    ("", content)

/-- The model output carries none of the two DSL markers and no answer tag. -/
def noMarker (content : String) : Bool :=
  !(containsSub content "finish(message=") &&
  !(containsSub content "do(action=") &&
  !(containsSub content "<answer>")

/-! ## Conversation turns and the message builder

`MessageBuilder` lives in `AutoGLM_GUI/model.py`, which is not part of the
sources at hand; only its call sites are.  Modelled from the spec (§3
ConversationTurn, §4.2 MessageContext): a turn has a role tag, text content,
an optional image attachment and optional tool-call metadata, and
`stripImage` is idempotent (stripping a turn with no image is a no-op). -/

/-- Tool-call metadata attached to an assistant turn (Gemini variant).  The
Python code JSON-encodes the arguments; we keep the dict itself. -/
structure ToolCallMeta where
  id : String
  name : String
  args : PyDict
  deriving DecidableEq, Repr

/-- Modelled from the spec: one conversation turn
(system/user/assistant/tool), with optional image attachment and optional
tool-call metadata. -/
structure Turn where
  role : String
  text : String
  image : Option String := none
  toolCalls : Option ToolCallMeta := none
  toolCallId : Option String := none
  deriving DecidableEq, Repr

/-- Modelled from the spec: `MessageBuilder.create_system_message`. -/
def create_system_message (text : String) : Turn :=
  { role := "system", text := text }

/-- Modelled from the spec: `MessageBuilder.create_user_message` with an
optional image attachment. -/
def create_user_message (text : String) (image_base64 : Option String) : Turn :=
  { role := "user", text := text, image := image_base64 }

/-- Modelled from the spec: `MessageBuilder.create_assistant_message`. -/
def create_assistant_message (text : String) : Turn :=
  { role := "assistant", text := text }

/-- Modelled from the spec: `MessageBuilder.remove_images_from_message`
(idempotent image stripping). -/
def remove_images_from_message (t : Turn) : Turn :=
  { t with image := none }

/-- Modelled from the spec: `MessageBuilder.build_screen_info` renders a
screen-info block holding the current foreground app identifier. -/
def build_screen_info (current_app : String) : String :=
  "Current App: " ++ current_app

/-- `self._context[-1] = remove_images_from_message(self._context[-1])`
applied to a context list (the context is never empty at the call sites). -/
def stripLastImage : List Turn → List Turn
  | [] => []
  | [t] => [remove_images_from_message t]
  | t :: rest => t :: stripLastImage rest

/-! ## Executor results, events, run state -/

/-- Modelled from the spec: the Action Executor contract (§6) —
`execute(action, w, h) -> ExecutionResult{success, should_finish, message}`.
The constructor signature matches the `ActionResult(...)` call sites in the
agent sources. -/
structure ActionResult where
  success : Bool
  shouldFinish : Bool
  message : Option String := none
  deriving DecidableEq, Repr

/-- A screenshot plus the foreground app, as returned by the device facade
(`get_screenshot` / `get_current_app`). -/
structure Obs where
  base64Data : String
  width : Nat
  height : Nat
  currentApp : String
  deriving DecidableEq, Repr

/-- The data dict of a `step` event. -/
structure StepData where
  step : Nat
  thinking : String
  action : Option ActionDict
  success : Bool
  finished : Bool
  message : Option PyVal
  deriving DecidableEq, Repr

/-- The events yielded by `stream` / `_execute_step`
(`{type: thinking|step|done|error|cancelled, data: {...}}`). -/
inductive Event where
  | thinking (chunk : String)
  | step (d : StepData)
  | done (message : Option PyVal) (steps : Nat) (success : Bool)
  | error (message : String)
  | cancelled (message : String)
  deriving DecidableEq, Repr

/-- Is this a `cancelled` event? -/
def Event.isCancelled : Event → Bool
  | .cancelled _ => true
  | _ => false

/-- Is this a `done` event? -/
def Event.isDone : Event → Bool
  | .done _ _ _ => true
  | _ => false

/-- The step numbers of the `step` events of a stream, in order. -/
def stepNumbers (evs : List Event) : List Nat :=
  evs.filterMap fun e =>
    match e with
    | .step d => some d.step
    | _ => none

/-- Mutable state of one agent instance: `_step_count`, `_is_running`,
`_cancel_event`, `_context`. -/
structure RunState where
  stepCount : Nat
  isRunning : Bool
  cancelSet : Bool
  context : List Turn
  deriving DecidableEq, Repr

/-- Python `result.message or action.get("message")`: `or` falls through on
falsy values (`None` and the empty string). -/
def pyOrMessage (rm : Option String) (am : Option PyVal) : Option PyVal :=
  match rm with
  | some s => if s = "" then am else some (.vstr s)
  | none => am

/-! ## `AsyncGLMAgent._execute_step`

The device, streaming LLM, DSL action parser (`GLMParser.parse`, not among
the sources) and action executor (`ActionHandler.execute`, not among the
sources) are oracles; an `Except.error` is a raised exception. -/

/-- Per-step oracle for the GLM agent: observation, LLM call (thinking chunks
plus accumulated raw content), DSL action parser, action executor. -/
structure GlmOracle where
  observe : Except String Obs
  llm : Except String (List String × String)
  parse : String → Except String ActionDict
  exec : ActionDict → Nat → Nat → Except String ActionResult

/-- Step 4 of `_execute_step`: parse the action string, degrading a parser
`ValueError` to `{"_metadata": "finish", "message": action_str}`. -/
def glmAction (o : GlmOracle) (raw : String) : ActionDict :=
  let actionStr := (parse_raw_response raw).2
  match o.parse actionStr with
  | .ok a => a
  | .error _ => finishDict (.vstr actionStr)

/-- Step 5 of `_execute_step`: execute the action, degrading an executor
exception to `ActionResult(success=False, should_finish=True, message=str(e))`. -/
def glmResult (o : GlmOracle) (a : ActionDict) (w h : Nat) : ActionResult :=
  match o.exec a w h with
  | .ok r => r
  | .error e => { success := false, shouldFinish := true, message := some e }

/-- `AsyncGLMAgent._execute_step`: one observe → decide → act cycle, returning
the yielded events and the updated state. -/
def glmExecuteStep (o : GlmOracle) (st : RunState) : List Event × RunState :=
  let n := st.stepCount + 1
  match o.observe with
  | .error e =>
      ([.error ("Device error: " ++ e),
        .step { step := n, thinking := "", action := none, success := false,
                finished := true, message := some (.vstr ("Device error: " ++ e)) }],
       { st with stepCount := n })
  | .ok obs =>
      let ctx := st.context ++
        [create_user_message
          ("** Screen Info **\n\n" ++ build_screen_info obs.currentApp)
          (some obs.base64Data)]
      match o.llm with
      | .error e =>
          ([.error ("Model error: " ++ e),
            .step { step := n, thinking := "", action := none, success := false,
                    finished := true, message := some (.vstr ("Model error: " ++ e)) }],
           { st with stepCount := n, context := ctx })
      | .ok (chunks, raw) =>
          let thinking := String.join chunks
          let actionStr := (parse_raw_response raw).2
          let action := glmAction o raw
          let result := glmResult o action obs.width obs.height
          let ctx := stripLastImage ctx ++
            [create_assistant_message
              ("<think>" ++ thinking ++ "</think><answer>" ++ actionStr ++ "</answer>")]
          let finished := action.metadata == "finish" || result.shouldFinish
          (chunks.map Event.thinking ++
            [.step { step := n, thinking := thinking, action := some action,
                     success := result.success, finished := finished,
                     message := pyOrMessage result.message action.message }],
           { st with stepCount := n, context := ctx })

/-! ## `AsyncGeminiAgent._execute_step` -/

/-- Per-step oracle for the Gemini agent: observation, LLM tool call
(thinking, tool name, parsed arguments), and the execute phase
(`get_screenshot` + `ActionHandler.execute` inside one `try`). -/
structure GeminiOracle where
  observe : Except String Obs
  llm : Except String (String × String × PyDict)
  execPhase : ActionDict → Except String ActionResult

/-- Step 4 of the Gemini `_execute_step`: execute the action, degrading an
exception to `ActionResult(success=False, should_finish=True, message=str(e))`. -/
def geminiResult (o : GeminiOracle) (a : ActionDict) : ActionResult :=
  match o.execPhase a with
  | .ok r => r
  | .error e => { success := false, shouldFinish := true, message := some e }

/-- `AsyncGeminiAgent._execute_step`: observation happens only for steps ≥ 2
(step 1 reuses the initial context); the tool call is mapped through
`tool_call_to_action`. -/
def geminiExecuteStep (o : GeminiOracle) (st : RunState) : List Event × RunState :=
  let n := st.stepCount + 1
  let afterObs : Except (List Event) (List Turn) :=
    if n > 1 then
      match o.observe with
      | .error e =>
          .error [.error ("Device error: " ++ e),
            .step { step := n, thinking := "", action := none, success := false,
                    finished := true, message := some (.vstr ("Device error: " ++ e)) }]
      | .ok obs =>
          .ok (st.context ++
            [create_user_message ("Current app: " ++ obs.currentApp)
              (some obs.base64Data)])
    else
      .ok st.context
  match afterObs with
  | .error evs => (evs, { st with stepCount := n })
  | .ok ctx =>
      match o.llm with
      | .error e =>
          ([.error ("Model error: " ++ e),
            .step { step := n, thinking := "", action := none, success := false,
                    finished := true, message := some (.vstr ("Model error: " ++ e)) }],
           { st with stepCount := n, context := ctx })
      | .ok (thinking, toolName, toolArgs) =>
          let action := tool_call_to_action toolName toolArgs
          let result := geminiResult o action
          let ctx := (if ctx.length > 1 then stripLastImage ctx else ctx) ++
            [{ role := "assistant", text := thinking,
               toolCalls := some { id := "call_" ++ toString n, name := toolName,
                                   args := toolArgs } },
             { role := "tool", text := "", toolCallId := some ("call_" ++ toString n) }]
          let finished := action.metadata == "finish" || result.shouldFinish
          ((if thinking = "" then [] else [Event.thinking thinking]) ++
            [.step { step := n, thinking := thinking, action := some action,
                     success := result.success, finished := finished,
                     message := pyOrMessage result.message action.message }],
           { st with stepCount := n, context := ctx })

/-! ## `AsyncAgentBase.stream`: the run controller

The loop consumes the events of `_execute_step` one by one; at the first
`step` event whose data carries `finished`, it emits the terminal `done`
event and returns, so events the step generator would have produced after it
are never consumed.  `cancel()` sets the cancel event AND clears
`_is_running` (src lines 162-166); the loop condition is
`step_count < max_steps and _is_running`, and the cancel event is checked
just inside the loop. -/

/-- Scan the events of one step as the loop consumes them: return the
consumed prefix and, when a finished `step` event was hit, its
`(message, success)` data. -/
def splitAtFinished : List Event → List Event × Option (Option PyVal × Bool)
  | [] => ([], none)
  | e :: rest =>
      match e with
      | .step d =>
          if d.finished then ([e], some (d.message, d.success))
          else
            let p := splitAtFinished rest
            (e :: p.1, p.2)
      | _ =>
          let p := splitAtFinished rest
          (e :: p.1, p.2)

/-- External cancellation schedule: `cancelAfter = some k` means `cancel()`
(which sets the cancel event and clears `_is_running`) is invoked at the
point where `step_count = k` and the loop is about to re-check its
condition — i.e. after step `k`'s events have been consumed and before
step `k+1` begins. -/
def applyCancel (cancelAfter : Option Nat) (st : RunState) : RunState :=
  if cancelAfter = some st.stepCount then
    { st with cancelSet := true, isRunning := false }
  else st

/-- The `while` loop of `AsyncAgentBase.stream`.  `fuel` bounds the
recursion; every claim instantiates step functions that increment
`step_count`, so `maxSteps + 1` units never run out. -/
def streamAux (stepFn : RunState → List Event × RunState) (maxSteps : Nat)
    (cancelAfter : Option Nat) : Nat → RunState → List Event
  | 0, _ => []
  | fuel + 1, st0 =>
      let st := applyCancel cancelAfter st0
      if st.stepCount < maxSteps ∧ st.isRunning then
        if st.cancelSet then
          [.cancelled "Task cancelled by user"]
        else
          let out := stepFn st
          match splitAtFinished out.1 with
          | (consumed, some (msg, success)) =>
              consumed ++ [.done msg out.2.stepCount success]
          | (evs, none) => evs ++ streamAux stepFn maxSteps cancelAfter fuel out.2
      else
        [.done (some (.vstr "Max steps reached")) st.stepCount false]

/-- `AsyncAgentBase.stream(task)`: initial observation, variant-specific
initial context, then the step loop.  `prepare` is the variant's
`_prepare_initial_context` acting on the system-only context. -/
def stream (stepFn : RunState → List Event × RunState) (maxSteps : Nat)
    (cancelAfter : Option Nat) (initObs : Except String Obs)
    (prepare : Obs → List Turn) : List Event :=
  match initObs with
  | .error e =>
      [.error ("Device error: " ++ e),
       .done (some (.vstr ("Device error: " ++ e))) 0 false]
  | .ok obs =>
      streamAux stepFn maxSteps cancelAfter (maxSteps + 1)
        { stepCount := 0, isRunning := true, cancelSet := false,
          context := prepare obs }

/-- `AsyncGLMAgent._prepare_initial_context`: the first user turn embeds the
task text, a screen-info block and the first screenshot. -/
def glmPrepare (sysPrompt task : String) (obs : Obs) : List Turn :=
  [create_system_message sysPrompt,
   create_user_message
     (task ++ "\n\n** Screen Info **\n\n" ++ build_screen_info obs.currentApp)
     (some obs.base64Data)]

/-- The GLM step function over a stream of per-step oracles (`os k` drives
the step that raises `step_count` from `k` to `k + 1`). -/
def glmStepFn (os : Nat → GlmOracle) : RunState → List Event × RunState :=
  fun st => glmExecuteStep (os st.stepCount) st

/-- A full GLM run. -/
def glmStream (os : Nat → GlmOracle) (maxSteps : Nat) (cancelAfter : Option Nat)
    (initObs : Except String Obs) (sysPrompt task : String) : List Event :=
  stream (glmStepFn os) maxSteps cancelAfter initObs (glmPrepare sysPrompt task)

/-- The context reached after `n` GLM steps all of whose oracles are used in
sequence, starting from the initial context (successful initial
observation). -/
def glmRunState (os : Nat → GlmOracle) (sysPrompt task : String) (obs : Obs) :
    Nat → RunState
  | 0 => { stepCount := 0, isRunning := true, cancelSet := false,
           context := glmPrepare sysPrompt task obs }
  | n + 1 => (glmExecuteStep (os n) (glmRunState os sysPrompt task obs n)).2

/-! ## `DualModelAgent` (`dual_model/dual_agent.py`)

`DecisionModel` and `VisionModel` are not among the sources; their payload
types are modelled from the spec (§3): `Decision{action, target, content,
reasoning, finished}`, `ScreenDescription{description, current_app,
elements}`, `ExecutionResult{action_type, target, position, success,
finished, message}`. -/

/-- Modelled from the spec: the decision model's per-step Decision value. -/
structure Decision where
  action : String
  target : String
  content : String
  reasoning : String
  finished : Bool
  deriving DecidableEq, Repr

/-- Modelled from the spec: the vision model's screen description. -/
structure ScreenDescription where
  description : String
  currentApp : String
  elements : List String
  deriving DecidableEq, Repr

/-- Modelled from the spec: the vision model's execution result. -/
structure ExecutionResult where
  actionType : String
  target : String
  position : Option (Int × Int)
  success : Bool
  finished : Bool
  message : String
  deriving DecidableEq, Repr

/-- The action dict the coordinator hands to the vision model
(`{"action": ..., "target": ..., "content": ...}`). -/
structure DualAction where
  action : String
  target : String
  content : String
  deriving DecidableEq, Repr

/-- Events the dual-model coordinator pushes onto its queue during one step
(streaming `decision_thinking` callbacks are not modelled; no claim touches
them). -/
inductive DualEvent where
  | vision_start
  | vision_recognition (sd : ScreenDescription)
  | decision_start (stage : String)
  | decision_result (d : Decision)
  | action_start (a : DualAction)
  | action_result (e : ExecutionResult)
  | step_complete (step : Nat) (success finished : Bool)
  deriving DecidableEq, Repr

/-- Is this an `action_start` or `action_result` event (an action dispatched
to the vision model)? -/
def DualEvent.isActionDispatch : DualEvent → Bool
  | .action_start _ => true
  | .action_result _ => true
  | _ => false

/-- `StepResult` of the dual coordinator. -/
structure DStepResult where
  step : Nat
  success : Bool
  finished : Bool
  decision : Option Decision := none
  screenDesc : Option ScreenDescription := none
  execution : Option ExecutionResult := none
  error : Option String := none
  deriving DecidableEq, Repr

/-- Per-step oracle for the dual coordinator: screenshot capture, screen
description, decision call, execution call; `.error` is a raised exception. -/
structure DualOracle where
  capture : Except String String
  describe : Except String ScreenDescription
  decide : Except String Decision
  execute : Except String ExecutionResult

/-- The `StepResult` built by the `except` clause of
`DualModelAgent._execute_step`. -/
def dualErrResult (n : Nat) (e : String) : DStepResult :=
  { step := n, success := false, finished := false, error := some e }

/-- `DualModelAgent._execute_step` (invoked with `step_count` already
incremented to `n` by the run loop): events emitted before a raised
exception stay on the queue; when the decision carries `finished`, the
vision/execution phase is skipped. -/
def dualExecuteStep (o : DualOracle) (n : Nat) : List DualEvent × DStepResult :=
  match o.capture with
  | .error e => ([.vision_start], dualErrResult n e)
  | .ok _ =>
  match o.describe with
  | .error e => ([.vision_start], dualErrResult n e)
  | .ok sd =>
  match o.decide with
  | .error e =>
      ([.vision_start, .vision_recognition sd, .decision_start "deciding"],
       dualErrResult n e)
  | .ok d =>
      let evs := [DualEvent.vision_start, .vision_recognition sd,
                  .decision_start "deciding", .decision_result d]
      if d.finished then
        (evs, { step := n, success := true, finished := true,
                decision := some d, screenDesc := some sd })
      else
        let evs := evs ++
          [DualEvent.action_start
            { action := d.action, target := d.target, content := d.content }]
        match o.execute with
        | .error e => (evs, dualErrResult n e)
        | .ok ex =>
            (evs ++ [.action_result ex, .step_complete n ex.success ex.finished],
             { step := n, success := ex.success, finished := ex.finished,
               decision := some d, screenDesc := some sd, execution := some ex })

/-- Outcome of `DualModelAgent.run`'s execution loop. -/
structure DualRunOut where
  steps : Nat
  lastMessage : String
  finished : Bool
  results : List DStepResult
  deriving DecidableEq, Repr

/-- The `while not finished and step_count < max_steps` loop of
`DualModelAgent.run`: a step whose result carries an error is logged and the
loop continues; a finished step ends the loop with the decision's reasoning
as the final message. -/
def dualRunAux (os : Nat → DualOracle) (maxSteps : Nat) :
    Nat → Nat → List DStepResult → DualRunOut
  | 0, stepCount, acc => { steps := stepCount, lastMessage := "", finished := false,
                           results := acc }
  | fuel + 1, stepCount, acc =>
      if stepCount < maxSteps then
        let n := stepCount + 1
        let res := (dualExecuteStep (os n) n).2
        if res.error.isSome then
          dualRunAux os maxSteps fuel n (acc ++ [res])
        else if res.finished then
          { steps := n,
            lastMessage := (res.decision.map Decision.reasoning).getD "任务完成",
            finished := true, results := acc ++ [res] }
        else
          dualRunAux os maxSteps fuel n (acc ++ [res])
      else
        { steps := stepCount, lastMessage := "", finished := false, results := acc }

/-- The `{success, message, steps}` dict returned by `DualModelAgent.run`,
plus the collected step results. -/
structure DualRunResult where
  success : Bool
  message : String
  steps : Nat
  results : List DStepResult
  deriving DecidableEq, Repr

/-- `DualModelAgent.run`'s final result, assuming the initial task analysis
succeeds. -/
def dualRun (os : Nat → DualOracle) (maxSteps : Nat) : DualRunResult :=
  let out := dualRunAux os maxSteps maxSteps 0 []
  { success := out.finished,
    message := if out.finished then out.lastMessage
      else "达到最大步数限制(" ++ toString maxSteps ++ ")",
    steps := out.steps, results := out.results }

/-! # Theorems -/

/-- Helper: every `.ok` result of `_build_action` is a `"do"` action or a
`"finish"` action. -/
theorem build_action_ok_metadata (name : String) (args : PyDict) (a : ActionDict)
    (h : build_action name args = .ok a) :
    a.metadata = "do" ∨ a.metadata = "finish" := by
  unfold build_action at h
  simp only [bind, Except.bind] at h
  repeat' split at h
  all_goals first
    | (cases h; simp [finishDict])
    | (simp at h)

/--
C9: `tool_call_to_action("tap", {x: 500.7, y: 300.2})` returns the Do action
with kind Tap and element coordinates `[500, 300]`: float arguments are
truncated toward zero (500.7 ↦ 500, not 501), not rejected.
(`mkRat 5007 10` is the rational 500.7.)
-/
theorem c9_float_coercion :
    tool_call_to_action "tap"
        [("x", .vfloat (mkRat 5007 10)), ("y", .vfloat (mkRat 3002 10))] =
      { metadata := "do", action := some "Tap", element := some [500, 300] } ∧
    pyTrunc (mkRat 5007 10) = 500 ∧ pyTrunc (mkRat 3002 10) = 300 := by
  decide

/--
C3 (counterexample): on the marker-free input `"hello"`, the parse result is
NOT (thinking = entire text, action = ""): `_parse_raw_response` returns
`("", "hello")`, the opposite split.
-/
theorem c3_counterexample :
    noMarker "hello" = true ∧ parse_raw_response "hello" ≠ ("hello", "") := by
  decide

/--
C3 (amended): for every model output containing neither `finish(message=` nor
`do(action=` nor an `<answer>` tag, `_parse_raw_response` returns empty
thinking and the entire text as the action string.
-/
theorem c3_no_marker (content : String) (h : noMarker content = true) :
    parse_raw_response content = ("", content) := by
  unfold noMarker at h
  simp only [Bool.and_eq_true, Bool.not_eq_true'] at h
  unfold parse_raw_response
  simp [h.1.1, h.1.2, h.2]

/-- Witness for `c3_no_marker` at the concrete input `"just thinking"`. -/
theorem c3_no_marker_witness :
    noMarker "just thinking" = true ∧
    parse_raw_response "just thinking" = ("", "just thinking") :=
  ⟨by decide, c3_no_marker "just thinking" (by decide)⟩

/--
C4: `tool_call_to_action` is total — it returns a `"do"` or `"finish"` action
dict for every tool name and argument dict; a name outside the known tool set
yields a finish whose message is `"Unknown tool: <name>"`; every
`_build_action` validation error (in particular a missing or mis-typed
required argument, shown for `tap`/`x`) degrades to a finish whose message
starts with `"Invalid tool call: "`.
-/
theorem c4_tool_call_fallback :
    (∀ name args, (tool_call_to_action name args).metadata = "do" ∨
      (tool_call_to_action name args).metadata = "finish") ∧
    (∀ name args, name ∉ knownTools →
      tool_call_to_action name args = finishDict (.vstr ("Unknown tool: " ++ name))) ∧
    (∀ name args e, build_action name args = .error e →
      tool_call_to_action name args =
        finishDict (.vstr ("Invalid tool call: " ++ e))) ∧
    (∀ args, dictGet args "x" = none →
      ∃ detail, tool_call_to_action "tap" args =
        finishDict (.vstr ("Invalid tool call: " ++ detail))) ∧
    (∀ args s, dictGet args "x" = some (.vstr s) →
      ∃ detail, tool_call_to_action "tap" args =
        finishDict (.vstr ("Invalid tool call: " ++ detail))) := by
  have herr : ∀ name args e, build_action name args = .error e →
      tool_call_to_action name args =
        finishDict (.vstr ("Invalid tool call: " ++ e)) := by
    intro name args e h
    by_cases hf : name = "finish"
    · subst hf; simp [build_action] at h
    · simp [tool_call_to_action, hf, h]
  refine ⟨?_, ?_, herr, ?_, ?_⟩
  · intro name args
    by_cases hf : name = "finish"
    · subst hf; right; rfl
    · cases hb : build_action name args with
      | ok a =>
          have := build_action_ok_metadata name args a hb
          simpa [tool_call_to_action, hf, hb] using this
      | error e => right; simp [tool_call_to_action, hf, hb, finishDict]
  · intro name args h
    simp only [knownTools, List.mem_cons, List.mem_singleton] at h
    push_neg at h
    obtain ⟨h1, h2, h3, h4, h5, h6, h7, h8, h9, h10⟩ := h
    simp [tool_call_to_action, build_action, h1, h2, h3, h4, h5, h6, h7, h8,
      h9, h10, finishDict]
  · intro args h
    cases hre : require_int args "x" with
    | ok v => unfold require_int at hre; rw [h] at hre; simp at hre
    | error msg =>
        exact ⟨msg, herr "tap" args msg
          (by simp [build_action, bind, Except.bind, hre])⟩
  · intro args s h
    cases hre : require_int args "x" with
    | ok v => unfold require_int at hre; rw [h] at hre; simp at hre
    | error msg =>
        exact ⟨msg, herr "tap" args msg
          (by simp [build_action, bind, Except.bind, hre])⟩

/-- Witness for `c4_tool_call_fallback` at concrete inputs: the tool
`frobnicate` is unknown; `tap` with `x` missing, and `tap` with a string
`x`, degrade to invalid-tool-call finishes. -/
theorem c4_tool_call_fallback_witness :
    ((tool_call_to_action "tap" []).metadata = "do" ∨
      (tool_call_to_action "tap" []).metadata = "finish") ∧
    tool_call_to_action "frobnicate" [] =
      finishDict (.vstr "Unknown tool: frobnicate") ∧
    (∃ detail, tool_call_to_action "tap" [("y", .vint 3)] =
      finishDict (.vstr ("Invalid tool call: " ++ detail))) ∧
    (∃ detail, tool_call_to_action "tap" [("x", .vstr "abc"), ("y", .vint 3)] =
      finishDict (.vstr ("Invalid tool call: " ++ detail))) :=
  ⟨c4_tool_call_fallback.1 "tap" [],
   c4_tool_call_fallback.2.1 "frobnicate" [] (by decide),
   c4_tool_call_fallback.2.2.2.1 [("y", .vint 3)] (by decide),
   c4_tool_call_fallback.2.2.2.2 [("x", .vstr "abc"), ("y", .vint 3)] "abc" (by decide)⟩

/-! ### C2: context image bound -/

/-- The most recent user turn of a context. -/
def lastUserTurn (ctx : List Turn) : Option Turn :=
  (ctx.filter fun t => t.role == "user").getLast?

/-- `stripLastImage` only touches the final element of a nonempty list. -/
theorem stripLastImage_append_singleton (l : List Turn) (a : Turn) :
    stripLastImage (l ++ [a]) = l ++ [remove_images_from_message a] := by
  induction l with
  | nil => rfl
  | cons c cs ih =>
      cases cs with
      | nil => simp [stripLastImage, ih]
      | cons c2 cs2 => simp [stripLastImage] at ih ⊢; exact ih

/-- A GLM per-step oracle whose observation and model call succeed. -/
def GlmStepOk (o : GlmOracle) : Prop :=
  (∃ obs, o.observe = .ok obs) ∧ (∃ cr, o.llm = .ok cr)

/--
C2 (amended): along any GLM run whose steps observe and call the model
successfully, after every step the context is the system turn, then the
initial user turn — the only turn holding an image attachment, which is the
initial screenshot and is never stripped — then turns holding no image.
(The original claim put the image on the most recent user turn; see the
counterexample.)
-/
theorem c2_image_bound (os : Nat → GlmOracle) (sysPrompt task : String)
    (obs : Obs) (n : Nat) (hok : ∀ k, k < n → GlmStepOk (os k)) :
    ∃ s u rest, (glmRunState os sysPrompt task obs n).context = s :: u :: rest ∧
      s.image = none ∧ u.image = some obs.base64Data ∧
      ∀ t ∈ rest, t.image = none := by
  induction n with
  | zero =>
      refine ⟨_, _, [], rfl, rfl, rfl, by simp⟩
  | succ n ih =>
      obtain ⟨s, u, rest, hctx, hs, hu, hrest⟩ :=
        ih (fun k hk => hok k (Nat.lt_succ_of_lt hk))
      obtain ⟨⟨obsn, hobs⟩, ⟨⟨chunks, raw⟩, hllm⟩⟩ := hok n (Nat.lt_succ_self n)
      refine ⟨s, u, rest ++
        [remove_images_from_message
          (create_user_message
            ("** Screen Info **\n\n" ++ build_screen_info obsn.currentApp)
            (some obsn.base64Data)),
         create_assistant_message
           ("<think>" ++ String.join chunks ++ "</think><answer>"
             ++ (parse_raw_response raw).2 ++ "</answer>")], ?_, hs, hu, ?_⟩
      · show (glmExecuteStep (os n) (glmRunState os sysPrompt task obs n)).2.context = _
        rw [glmExecuteStep, hobs, hllm]
        simp only [hctx]
        rw [show (s :: u :: rest) ++
              [create_user_message
                ("** Screen Info **\n\n" ++ build_screen_info obsn.currentApp)
                (some obsn.base64Data)] =
            (s :: u :: rest) ++
              [create_user_message
                ("** Screen Info **\n\n" ++ build_screen_info obsn.currentApp)
                (some obsn.base64Data)] from rfl]
        rw [stripLastImage_append_singleton]
        simp
      · intro t ht
        simp only [List.mem_append, List.mem_cons, List.mem_singleton] at ht
        rcases ht with h | h | h
        · exact hrest t h
        · subst h; rfl
        · simp at h; subst h; rfl

/-- The GLM per-step oracle used for the concrete C2 runs. -/
def c2Oracle : GlmOracle :=
  { observe := .ok { base64Data := "IMG1", width := 100, height := 200,
                     currentApp := "com.example.app" },
    llm := .ok (["t"], "raw output"),
    parse := fun s => .error s,
    exec := fun _ _ _ => .ok { success := true, shouldFinish := false, message := some "ok" } }

/-- The initial observation of the concrete C2 runs. -/
def c2Obs : Obs :=
  { base64Data := "IMG0", width := 100, height := 200, currentApp := "home" }

/-- The context after step 1 of the concrete GLM run. -/
def c2Ctx : List Turn :=
  (glmRunState (fun _ => c2Oracle) "SYS" "TASK" c2Obs 1).context

/--
C2 (counterexample): after step 1 of a concrete GLM run, a turn DOES hold an
image, yet not every image-holding turn is the most recent user turn: the
image sits on the initial user turn (index 1), which the most recent user
turn is not — refuting "that turn is the most recent user turn, and all
earlier turns hold none".
-/
theorem c2_counterexample :
    (∃ t ∈ c2Ctx, t.image ≠ none) ∧
    ¬ (∀ t ∈ c2Ctx, t.image ≠ none → lastUserTurn c2Ctx = some t) := by
  decide

/-- Witness for `c2_image_bound`: the concrete two-step GLM run. -/
theorem c2_image_bound_witness :
    ∃ s u rest,
      (glmRunState (fun _ => c2Oracle) "SYS" "TASK" c2Obs 2).context =
        s :: u :: rest ∧
      s.image = none ∧ u.image = some c2Obs.base64Data ∧
      ∀ t ∈ rest, t.image = none :=
  c2_image_bound (fun _ => c2Oracle) "SYS" "TASK" c2Obs 2
    (fun _ _ => ⟨⟨_, rfl⟩, ⟨(["t"], "raw output"), rfl⟩⟩)

/-! ### C5 / C1: max-steps boundary and cancellation -/

/-- A step generator driven by a model that never finishes: each call yields
some thinking events then exactly one `step` event with `finished = false`,
numbered with the incremented step count, and it only mutates `step_count`. -/
def NonFinishingStep (stepFn : RunState → List Event × RunState) : Prop :=
  ∀ st, ∃ (chunks : List String) (d : StepData),
    (stepFn st).1 = chunks.map Event.thinking ++ [Event.step d] ∧
    d.finished = false ∧
    d.step = st.stepCount + 1 ∧
    (stepFn st).2.stepCount = st.stepCount + 1 ∧
    (stepFn st).2.isRunning = st.isRunning ∧
    (stepFn st).2.cancelSet = st.cancelSet

/-- `[a, a+1, ..., a+n-1]`. -/
def stepsFrom (a : Nat) : Nat → List Nat
  | 0 => []
  | n + 1 => a :: stepsFrom (a + 1) n

/-- Scanning thinking events never stops the loop's finish check. -/
theorem splitAtFinished_thinking (chunks : List String) (l : List Event) :
    splitAtFinished (chunks.map Event.thinking ++ l) =
      ((chunks.map Event.thinking) ++ (splitAtFinished l).1, (splitAtFinished l).2) := by
  induction chunks with
  | nil => simp
  | cons c cs ih => simp [splitAtFinished, ih]

/-- An unfinished `step` event passes through the loop's finish check. -/
theorem splitAtFinished_unfinished (d : StepData) (hd : d.finished = false) :
    splitAtFinished [Event.step d] = ([Event.step d], none) := by
  simp [splitAtFinished, hd]

/-- `stepNumbers` distributes over append. -/
theorem stepNumbers_append (a b : List Event) :
    stepNumbers (a ++ b) = stepNumbers a ++ stepNumbers b := by
  simp [stepNumbers]

/-- Thinking events carry no step numbers. -/
theorem stepNumbers_thinking (chunks : List String) :
    stepNumbers (chunks.map Event.thinking) = [] := by
  induction chunks with
  | nil => rfl
  | cons c cs ih => simp [stepNumbers]

/-- Without a cancellation schedule, the cancel application is a no-op. -/
theorem applyCancel_none (st : RunState) : applyCancel none st = st := by
  simp [applyCancel]

/-- Main loop lemma: with a never-finishing step generator and no
cancellation, the loop runs `maxSteps - step_count` further steps, numbering
them consecutively, and ends in the max-steps `done` event. -/
theorem streamAux_nonfinishing (stepFn : RunState → List Event × RunState)
    (h : NonFinishingStep stepFn) (maxSteps : Nat) :
    ∀ fuel st, st.isRunning = true → st.cancelSet = false →
      maxSteps < st.stepCount + fuel → st.stepCount ≤ maxSteps →
      stepNumbers (streamAux stepFn maxSteps none fuel st) =
        stepsFrom (st.stepCount + 1) (maxSteps - st.stepCount) ∧
      (streamAux stepFn maxSteps none fuel st).getLast? =
        some (.done (some (.vstr "Max steps reached")) maxSteps false) := by
  intro fuel
  induction fuel with
  | zero => intro st _ _ hfuel hle; omega
  | succ fuel ih =>
      intro st hrun hcan hfuel hle
      obtain ⟨chunks, d, hevs, hdfin, hdstep, hsc, hrun2, hcan2⟩ := h st
      by_cases hlt : st.stepCount < maxSteps
      · have hrec := ih (stepFn st).2 (by rw [hrun2, hrun]) (by rw [hcan2, hcan])
          (by omega) (by omega)
        have hkey : splitAtFinished (stepFn st).1 =
            (chunks.map Event.thinking ++ [Event.step d], none) := by
          rw [hevs, splitAtFinished_thinking, splitAtFinished_unfinished d hdfin]
        have hstream : streamAux stepFn maxSteps none (fuel + 1) st =
            (chunks.map Event.thinking ++ [Event.step d]) ++
              streamAux stepFn maxSteps none fuel (stepFn st).2 := by
          simp only [streamAux, applyCancel_none]
          rw [if_pos ⟨hlt, hrun⟩, if_neg (by simp [hcan]), hkey]
        rw [hstream]
        constructor
        · rw [stepNumbers_append, stepNumbers_append, stepNumbers_thinking,
            hrec.1, hsc]
          have hsplit : maxSteps - st.stepCount =
              (maxSteps - (st.stepCount + 1)) + 1 := by omega
          rw [hsplit, stepsFrom]
          simp [stepNumbers, hdstep]
        · rw [List.getLast?_append_of_ne_nil]
          · exact hrec.2
          · intro hnil
            have := hrec.2
            rw [hnil] at this
            simp at this
      · have heq : st.stepCount = maxSteps := by omega
        have hstream : streamAux stepFn maxSteps none (fuel + 1) st =
            [.done (some (.vstr "Max steps reached")) st.stepCount false] := by
          simp only [streamAux, applyCancel_none]
          rw [if_neg (fun hc => hlt hc.1)]
        rw [hstream, heq]
        exact ⟨by simp [stepNumbers, stepsFrom], by simp⟩

/--
C5: with `max_steps = 3` and a model that never finishes (and steps that
never set `should_finish`), the run performs exactly steps 1, 2, 3 and then
emits, as its final event, `done` with message `"Max steps reached"` and
`success = false`.
-/
theorem c5_max_steps_boundary (stepFn : RunState → List Event × RunState)
    (prep : Obs → List Turn) (obs : Obs) (h : NonFinishingStep stepFn) :
    stepNumbers (stream stepFn 3 none (.ok obs) prep) = [1, 2, 3] ∧
    (stream stepFn 3 none (.ok obs) prep).getLast? =
      some (.done (some (.vstr "Max steps reached")) 3 false) := by
  have := streamAux_nonfinishing stepFn h 3 4
    { stepCount := 0, isRunning := true, cancelSet := false, context := prep obs }
    rfl rfl (by show (3 : ℕ) < 0 + 4; omega) (by show (0 : ℕ) ≤ 3; omega)
  rw [stream]
  exact ⟨by rw [this.1]; rfl, this.2⟩

/-- A concrete never-finishing step generator: one unfinished `step` event
per call, incrementing the step count. -/
def neverFinishStepFn : RunState → List Event × RunState :=
  fun st =>
    ([Event.step { step := st.stepCount + 1, thinking := "", action := none,
                   success := true, finished := false, message := none }],
     { st with stepCount := st.stepCount + 1 })

/-- `neverFinishStepFn` satisfies `NonFinishingStep`. -/
theorem neverFinishStepFn_spec : NonFinishingStep neverFinishStepFn := by
  intro st
  exact ⟨[], _, rfl, rfl, rfl, rfl, rfl, rfl⟩

/-- A concrete observation for closed runs. -/
def demoObs : Obs :=
  { base64Data := "IMG", width := 10, height := 20, currentApp := "app" }

/-- Witness for `c5_max_steps_boundary` on the concrete generator. -/
theorem c5_max_steps_boundary_witness :
    stepNumbers (stream neverFinishStepFn 3 none (.ok demoObs) (fun _ => [])) =
      [1, 2, 3] ∧
    (stream neverFinishStepFn 3 none (.ok demoObs) (fun _ => [])).getLast? =
      some (.done (some (.vstr "Max steps reached")) 3 false) :=
  c5_max_steps_boundary neverFinishStepFn (fun _ => []) demoObs neverFinishStepFn_spec

/--
C1 (code evaluated at the failing input): in a 5-step run over a
never-finishing model, invoking `cancel()` after step 2's step event — which
sets the cancel event AND clears `_is_running` (src lines 162-166) — makes
the loop condition fail before the loop-top cancel check can run: the run
emits `done` with message `"Max steps reached"`, `steps = 2`,
`success = false`, and NO `cancelled` event, while `step_count` stays at 2.
Had only the cancel event been set (with `_is_running` left true), the
loop-top check would have produced exactly the claimed `cancelled` event —
that check is unreachable through `cancel()`.
-/
theorem c1_cancel_mid_run_divergence :
    (stream neverFinishStepFn 5 (some 2) (.ok demoObs) (fun _ => []) =
      [.step { step := 1, thinking := "", action := none, success := true,
               finished := false, message := none },
       .step { step := 2, thinking := "", action := none, success := true,
               finished := false, message := none },
       .done (some (.vstr "Max steps reached")) 2 false]) ∧
    ((stream neverFinishStepFn 5 (some 2) (.ok demoObs) (fun _ => [])).all
      fun e => !e.isCancelled) = true ∧
    streamAux neverFinishStepFn 5 none 6
      { stepCount := 2, isRunning := true, cancelSet := true, context := [] } =
      [.cancelled "Task cancelled by user"] := by
  decide

/-! ### C6: device observation failure is step- and run-fatal -/

/-- When a step's events contain a finished `step` event, the loop consumes
the step's events up to it and terminates with the `done` event built from
its data. -/
theorem streamAux_first_finished (stepFn : RunState → List Event × RunState)
    (maxSteps fuel : Nat) (st : RunState) (consumed : List Event)
    (msg : Option PyVal) (succ : Bool)
    (hrun : st.isRunning = true) (hcan : st.cancelSet = false)
    (hlt : st.stepCount < maxSteps)
    (hsplit : splitAtFinished (stepFn st).1 = (consumed, some (msg, succ))) :
    streamAux stepFn maxSteps none (fuel + 1) st =
      consumed ++ [.done msg (stepFn st).2.stepCount succ] := by
  simp only [streamAux, applyCancel_none]
  rw [if_pos ⟨hlt, hrun⟩, if_neg (by simp [hcan]), hsplit]

/-- The terminal step data of a device-error step. -/
def deviceErrorStep (n : Nat) (e : String) : StepData :=
  { step := n, thinking := "", action := none, success := false,
    finished := true, message := some (.vstr ("Device error: " ++ e)) }

/--
C6: when the observe phase fails, the GLM step (every step) and the Gemini
step (steps ≥ 2, the ones with an observe phase) emit exactly an `error`
event followed by a terminal `step` event with `finished = true`,
`success = false` and a message describing the device error; and a run whose
first GLM step fails this way ends immediately: its whole event stream is the
`error` event, the terminal `step` event, and the `done` event.
-/
theorem c6_device_error_fatal :
    (∀ (o : GlmOracle) (st : RunState) (e : String), o.observe = .error e →
      glmExecuteStep o st =
        ([.error ("Device error: " ++ e),
          .step (deviceErrorStep (st.stepCount + 1) e)],
         { st with stepCount := st.stepCount + 1 })) ∧
    (∀ (o : GeminiOracle) (st : RunState) (e : String), 1 ≤ st.stepCount →
      o.observe = .error e →
      geminiExecuteStep o st =
        ([.error ("Device error: " ++ e),
          .step (deviceErrorStep (st.stepCount + 1) e)],
         { st with stepCount := st.stepCount + 1 })) ∧
    (∀ (os : Nat → GlmOracle) (maxSteps : Nat) (obs : Obs)
        (sysPrompt task e : String), 1 ≤ maxSteps → (os 0).observe = .error e →
      glmStream os maxSteps none (.ok obs) sysPrompt task =
        [.error ("Device error: " ++ e),
         .step (deviceErrorStep 1 e),
         .done (some (.vstr ("Device error: " ++ e))) 1 false]) := by
  have hglm : ∀ (o : GlmOracle) (st : RunState) (e : String), o.observe = .error e →
      glmExecuteStep o st =
        ([.error ("Device error: " ++ e),
          .step (deviceErrorStep (st.stepCount + 1) e)],
         { st with stepCount := st.stepCount + 1 }) := by
    intro o st e h
    simp only [glmExecuteStep, h, deviceErrorStep]
  refine ⟨hglm, ?_, ?_⟩
  · intro o st e hn h
    have h1 : st.stepCount + 1 > 1 := by omega
    simp only [geminiExecuteStep, h, if_pos h1, deviceErrorStep]
  · intro os maxSteps obs sysPrompt task e hmax h
    have hstep : glmStepFn os
        { stepCount := 0, isRunning := true, cancelSet := false,
          context := glmPrepare sysPrompt task obs } =
        ([.error ("Device error: " ++ e), .step (deviceErrorStep 1 e)],
         { stepCount := 1, isRunning := true, cancelSet := false,
           context := glmPrepare sysPrompt task obs }) :=
      hglm (os 0) _ e h
    obtain ⟨m, rfl⟩ : ∃ m, maxSteps = m + 1 := ⟨maxSteps - 1, by omega⟩
    have hsplit : splitAtFinished (glmStepFn os
        { stepCount := 0, isRunning := true, cancelSet := false,
          context := glmPrepare sysPrompt task obs }).1 =
        ([.error ("Device error: " ++ e), .step (deviceErrorStep 1 e)],
         some (some (.vstr ("Device error: " ++ e)), false)) := by
      rw [hstep]
      simp [splitAtFinished, deviceErrorStep]
    have hmain := streamAux_first_finished (glmStepFn os) (m + 1) (m + 1)
      { stepCount := 0, isRunning := true, cancelSet := false,
        context := glmPrepare sysPrompt task obs }
      _ _ _ rfl rfl (Nat.succ_pos m) hsplit
    simp only [glmStream, stream]
    rw [hmain, hstep]
    simp

/-- A GLM oracle whose device observation fails. -/
def c6Oracle : GlmOracle :=
  { observe := .error "device unreachable",
    llm := .ok ([], ""),
    parse := fun s => .error s,
    exec := fun _ _ _ => .ok { success := true, shouldFinish := false } }

/-- A Gemini oracle whose device observation fails. -/
def c6GemOracle : GeminiOracle :=
  { observe := .error "device unreachable",
    llm := .ok ("", "finish", []),
    execPhase := fun _ => .ok { success := true, shouldFinish := false } }

/-- Witness for `c6_device_error_fatal` at concrete states and oracles. -/
theorem c6_device_error_fatal_witness :
    glmExecuteStep c6Oracle
        { stepCount := 0, isRunning := true, cancelSet := false, context := [] } =
      ([.error "Device error: device unreachable",
        .step (deviceErrorStep 1 "device unreachable")],
       { stepCount := 1, isRunning := true, cancelSet := false, context := [] }) ∧
    geminiExecuteStep c6GemOracle
        { stepCount := 1, isRunning := true, cancelSet := false, context := [] } =
      ([.error "Device error: device unreachable",
        .step (deviceErrorStep 2 "device unreachable")],
       { stepCount := 2, isRunning := true, cancelSet := false, context := [] }) ∧
    glmStream (fun _ => c6Oracle) 5 none (.ok demoObs) "SYS" "TASK" =
      [.error "Device error: device unreachable",
       .step (deviceErrorStep 1 "device unreachable"),
       .done (some (.vstr "Device error: device unreachable")) 1 false] :=
  ⟨c6_device_error_fatal.1 c6Oracle _ "device unreachable" rfl,
   c6_device_error_fatal.2.1 c6GemOracle _ "device unreachable" (by decide) rfl,
   c6_device_error_fatal.2.2 (fun _ => c6Oracle) 5 demoObs "SYS" "TASK"
     "device unreachable" (by decide) rfl⟩

/-! ### C7: the finish check -/

/--
C7: in every GLM step that passes its observe and model phases, the emitted
`step` event's `finished` flag is exactly `(parsed action is a Finish) OR
(executor result's should_finish)`; the same holds in every Gemini step; and
`should_finish = true` forces `finished = true` even for a non-Finish action.
-/
theorem c7_finish_check :
    (∀ (o : GlmOracle) (st : RunState) (obs : Obs) (chunks : List String)
        (raw : String), o.observe = .ok obs → o.llm = .ok (chunks, raw) →
      (glmExecuteStep o st).1.getLast? =
        some (.step
          { step := st.stepCount + 1,
            thinking := String.join chunks,
            action := some (glmAction o raw),
            success := (glmResult o (glmAction o raw) obs.width obs.height).success,
            finished := ((glmAction o raw).metadata == "finish"
              || (glmResult o (glmAction o raw) obs.width obs.height).shouldFinish),
            message := pyOrMessage
              (glmResult o (glmAction o raw) obs.width obs.height).message
              (glmAction o raw).message })) ∧
    (∀ (o : GeminiOracle) (st : RunState) (thinking toolName : String)
        (args : PyDict), o.llm = .ok (thinking, toolName, args) →
      (st.stepCount = 0 ∨ ∃ obs, o.observe = .ok obs) →
      ∃ d, (geminiExecuteStep o st).1.getLast? = some (.step d) ∧
        d.step = st.stepCount + 1 ∧
        d.finished = ((tool_call_to_action toolName args).metadata == "finish"
          || (geminiResult o (tool_call_to_action toolName args)).shouldFinish)) ∧
    (∀ (a : ActionDict) (r : ActionResult), r.shouldFinish = true →
      (a.metadata == "finish" || r.shouldFinish) = true) := by
  refine ⟨?_, ?_, ?_⟩
  · intro o st obs chunks raw hobs hllm
    simp only [glmExecuteStep, hobs, hllm, glmAction, glmResult]
    rw [List.getLast?_concat]
  · intro o st thinking toolName args hllm hor
    refine ⟨{ step := st.stepCount + 1, thinking := thinking,
              action := some (tool_call_to_action toolName args),
              success := (geminiResult o (tool_call_to_action toolName args)).success,
              finished := ((tool_call_to_action toolName args).metadata == "finish"
                || (geminiResult o (tool_call_to_action toolName args)).shouldFinish),
              message := pyOrMessage
                (geminiResult o (tool_call_to_action toolName args)).message
                (tool_call_to_action toolName args).message }, ?_, rfl, rfl⟩
    by_cases hn : st.stepCount = 0
    · simp only [geminiExecuteStep, hllm]
      rw [if_neg (by omega)]
      rw [List.getLast?_concat]
    · obtain ⟨obs, hobs⟩ := hor.resolve_left hn
      simp only [geminiExecuteStep, hobs, hllm]
      rw [if_pos (by omega)]
      rw [List.getLast?_concat]
  · intro a r h
    rw [h, Bool.or_true]

/-- A GLM oracle for the concrete C7 step: a non-Finish action whose executor
sets `should_finish`. -/
def c7Oracle : GlmOracle :=
  { observe := .ok demoObs,
    llm := .ok (["think"], "think do(action=x)"),
    parse := fun _ => .ok { metadata := "do", action := some "Tap" },
    exec := fun _ _ _ => .ok { success := true, shouldFinish := true, message := some "done by executor" } }

/-- A Gemini oracle for the concrete C7 step. -/
def c7GemOracle : GeminiOracle :=
  { observe := .ok demoObs,
    llm := .ok ("thought", "back", []),
    execPhase := fun _ => .ok { success := true, shouldFinish := true, message := some "done by executor" } }

/-- Witness for `c7_finish_check`: concrete steps where the action is not a
Finish but the executor's `should_finish` makes `finished = true`. -/
theorem c7_finish_check_witness :
    ((glmExecuteStep c7Oracle
        { stepCount := 0, isRunning := true, cancelSet := false, context := [] }).1.getLast? =
      some (.step
        { step := 1,
          thinking := String.join ["think"],
          action := some (glmAction c7Oracle "think do(action=x)"),
          success := (glmResult c7Oracle (glmAction c7Oracle "think do(action=x)")
            demoObs.width demoObs.height).success,
          finished := ((glmAction c7Oracle "think do(action=x)").metadata == "finish"
            || (glmResult c7Oracle (glmAction c7Oracle "think do(action=x)")
              demoObs.width demoObs.height).shouldFinish),
          message := pyOrMessage
            (glmResult c7Oracle (glmAction c7Oracle "think do(action=x)")
              demoObs.width demoObs.height).message
            (glmAction c7Oracle "think do(action=x)").message })) ∧
    (∃ d, (geminiExecuteStep c7GemOracle
        { stepCount := 0, isRunning := true, cancelSet := false, context := [] }).1.getLast? =
      some (.step d) ∧
      d.step = 1 ∧
      d.finished = ((tool_call_to_action "back" []).metadata == "finish"
        || (geminiResult c7GemOracle (tool_call_to_action "back" [])).shouldFinish)) ∧
    (({ metadata := "do", action := some "Tap" : ActionDict}).metadata == "finish"
      || ({ success := true, shouldFinish := true : ActionResult}).shouldFinish) = true :=
  ⟨c7_finish_check.1 c7Oracle _ demoObs ["think"] "think do(action=x)" rfl rfl,
   c7_finish_check.2.1 c7GemOracle _ "thought" "back" [] rfl (Or.inl rfl),
   c7_finish_check.2.2 { metadata := "do", action := some "Tap" }
     { success := true, shouldFinish := true } rfl⟩

/-! ### C8: dual-model finished skip -/

/--
C8: in a dual-model step whose decision carries `finished = true`, the
vision/execution phase is skipped — the step's events contain no
`action_start` and no `action_result`, the execution oracle is never
consulted (`execution = none`) — and the step result reports
`finished = true` and `success = true`.
-/
theorem c8_dual_finished_skip (o : DualOracle) (n : Nat) (shot : String)
    (sd : ScreenDescription) (d : Decision)
    (hc : o.capture = .ok shot) (hd : o.describe = .ok sd)
    (hdec : o.decide = .ok d) (hfin : d.finished = true) :
    dualExecuteStep o n =
      ([.vision_start, .vision_recognition sd, .decision_start "deciding",
        .decision_result d],
       { step := n, success := true, finished := true,
         decision := some d, screenDesc := some sd }) ∧
    ∀ ev ∈ (dualExecuteStep o n).1, ev.isActionDispatch = false := by
  have heq : dualExecuteStep o n =
      ([.vision_start, .vision_recognition sd, .decision_start "deciding",
        .decision_result d],
       { step := n, success := true, finished := true,
         decision := some d, screenDesc := some sd }) := by
    simp only [dualExecuteStep, hc, hd, hdec, if_pos hfin]
  refine ⟨heq, ?_⟩
  rw [heq]
  intro ev hev
  simp only [List.mem_cons, List.not_mem_nil, or_false] at hev
  rcases hev with rfl | rfl | rfl | rfl <;> rfl

/-- A dual-model oracle whose decision reports the task finished. -/
def c8Oracle : DualOracle :=
  { capture := .ok "SHOT",
    describe := .ok { description := "home screen", currentApp := "launcher",
                      elements := ["icon"] },
    decide := .ok { action := "", target := "", content := "",
                    reasoning := "task is done", finished := true },
    execute := .error "must not be consulted" }

/-- Witness for `c8_dual_finished_skip` on the concrete oracle. -/
theorem c8_dual_finished_skip_witness :
    dualExecuteStep c8Oracle 3 =
      ([.vision_start,
        .vision_recognition { description := "home screen",
                              currentApp := "launcher", elements := ["icon"] },
        .decision_start "deciding",
        .decision_result { action := "", target := "", content := "",
                           reasoning := "task is done", finished := true }],
       { step := 3, success := true, finished := true,
         decision := some { action := "", target := "", content := "",
                            reasoning := "task is done", finished := true },
         screenDesc := some { description := "home screen",
                              currentApp := "launcher", elements := ["icon"] } }) ∧
    ∀ ev ∈ (dualExecuteStep c8Oracle 3).1, ev.isActionDispatch = false :=
  c8_dual_finished_skip c8Oracle 3 "SHOT" _ _ rfl rfl rfl rfl

/-! ### C10: dual-model runs survive step errors -/

/-- Helper: an exception raised at any stage of a dual-model step — capture,
describe, decide, or execute — is captured into the step result's `error`
field with `finished = false` and `success = false` (and the step keeps its
number). -/
theorem dual_step_error_captured (o : DualOracle) (n : Nat) :
    (∀ e, o.capture = .error e → (dualExecuteStep o n).2 = dualErrResult n e) ∧
    (∀ shot e, o.capture = .ok shot → o.describe = .error e →
      (dualExecuteStep o n).2 = dualErrResult n e) ∧
    (∀ shot sd e, o.capture = .ok shot → o.describe = .ok sd →
      o.decide = .error e → (dualExecuteStep o n).2 = dualErrResult n e) ∧
    (∀ shot sd d e, o.capture = .ok shot → o.describe = .ok sd →
      o.decide = .ok d → d.finished = false → o.execute = .error e →
      (dualExecuteStep o n).2 = dualErrResult n e) ∧
    ((dualExecuteStep o n).2.error.isSome →
      (dualExecuteStep o n).2.success = false ∧
      (dualExecuteStep o n).2.finished = false ∧
      (dualExecuteStep o n).2.step = n) := by
  refine ⟨?_, ?_, ?_, ?_, ?_⟩
  · intro e h; simp only [dualExecuteStep, h]
  · intro shot e hc h; simp only [dualExecuteStep, hc, h]
  · intro shot sd e hc hd h; simp only [dualExecuteStep, hc, hd, h]
  · intro shot sd d e hc hd hdec hfin h
    simp only [dualExecuteStep, hc, hd, hdec, hfin, h]
    simp
  · intro herr
    unfold dualExecuteStep at herr ⊢
    repeat' split
    all_goals simp_all [dualErrResult]

/-- One loop iteration over a failing step: the result is logged and the
loop continues with the next step number. -/
theorem dualRunAux_error_step (os : Nat → DualOracle) (maxSteps fuel sc : Nat)
    (acc : List DStepResult) (hlt : sc < maxSteps)
    (herr : (dualExecuteStep (os (sc + 1)) (sc + 1)).2.error.isSome = true) :
    dualRunAux os maxSteps (fuel + 1) sc acc =
      dualRunAux os maxSteps fuel (sc + 1)
        (acc ++ [(dualExecuteStep (os (sc + 1)) (sc + 1)).2]) := by
  simp only [dualRunAux]
  rw [if_pos hlt, if_pos herr]

/-- One loop iteration over a finishing step: the loop ends with the
decision's reasoning as the final message. -/
theorem dualRunAux_finished_step (os : Nat → DualOracle) (maxSteps fuel sc : Nat)
    (acc : List DStepResult) (hlt : sc < maxSteps)
    (hok : (dualExecuteStep (os (sc + 1)) (sc + 1)).2.error = none)
    (hfin : (dualExecuteStep (os (sc + 1)) (sc + 1)).2.finished = true) :
    dualRunAux os maxSteps (fuel + 1) sc acc =
      { steps := sc + 1,
        lastMessage := (((dualExecuteStep (os (sc + 1)) (sc + 1)).2).decision.map
          Decision.reasoning).getD "任务完成",
        finished := true,
        results := acc ++ [(dualExecuteStep (os (sc + 1)) (sc + 1)).2] } := by
  simp only [dualRunAux]
  rw [if_pos hlt]
  rw [show (dualExecuteStep (os (sc + 1)) (sc + 1)).2.error.isSome = false from
    by simp [hok]]
  rw [if_neg (by simp), if_pos hfin]

/-- Helper: a failing step does not terminate a dual-model run — the loop
counts it and proceeds to the next step, until finish or max_steps. -/
theorem dual_run_survives (os : Nat → DualOracle) :
    (∀ (maxSteps : Nat) (e shot : String) (sd : ScreenDescription) (d : Decision),
      2 ≤ maxSteps →
      (os 1).capture = .error e →
      (os 2).capture = .ok shot → (os 2).describe = .ok sd →
      (os 2).decide = .ok d → d.finished = true →
      dualRun os maxSteps =
        { success := true, message := d.reasoning, steps := 2,
          results := [dualErrResult 1 e,
            { step := 2, success := true, finished := true,
              decision := some d, screenDesc := some sd }] }) ∧
    (∀ maxSteps : Nat,
      (∀ n, (dualExecuteStep (os n) n).2.error.isSome) →
      (dualRun os maxSteps).success = false ∧
      (dualRun os maxSteps).steps = maxSteps) := by
  constructor
  · intro maxSteps e shot sd d hmax h1 hc hd hdec hfin
    obtain ⟨m, rfl⟩ : ∃ m, maxSteps = (m + 1) + 1 := ⟨maxSteps - 2, by omega⟩
    have hs1 : dualExecuteStep (os 1) 1 = ([.vision_start], dualErrResult 1 e) := by
      simp only [dualExecuteStep, h1]
    have hs2 : dualExecuteStep (os 2) 2 =
        ([.vision_start, .vision_recognition sd, .decision_start "deciding",
          .decision_result d],
         { step := 2, success := true, finished := true,
           decision := some d, screenDesc := some sd }) := by
      simp only [dualExecuteStep, hc, hd, hdec, if_pos hfin]
    have chain : dualRunAux os ((m + 1) + 1) ((m + 1) + 1) 0 [] =
        { steps := 2, lastMessage := d.reasoning, finished := true,
          results := [dualErrResult 1 e,
            { step := 2, success := true, finished := true,
              decision := some d, screenDesc := some sd }] } := by
      rw [dualRunAux_error_step os ((m + 1) + 1) (m + 1) 0 [] (by omega)
        (by simp [hs1, dualErrResult])]
      simp only [Nat.zero_add, List.nil_append, hs1]
      rw [dualRunAux_finished_step os ((m + 1) + 1) m 1 [dualErrResult 1 e]
        (by omega) (by simp [hs2]) (by simp [hs2])]
      simp [hs2]
    simp only [dualRun, chain]
    simp
  · intro maxSteps hall
    have haux : ∀ fuel sc acc, sc + fuel = maxSteps →
        (dualRunAux os maxSteps fuel sc acc).finished = false ∧
        (dualRunAux os maxSteps fuel sc acc).steps = maxSteps := by
      intro fuel
      induction fuel with
      | zero =>
          intro sc acc hsum
          rw [dualRunAux]
          exact ⟨rfl, show sc = maxSteps by omega⟩
      | succ fuel ih =>
          intro sc acc hsum
          rw [dualRunAux_error_step os maxSteps fuel sc acc (by omega)
            (hall (sc + 1))]
          exact ih (sc + 1) _ (by omega)
    have h0 := haux maxSteps 0 [] (by omega)
    constructor
    · simp only [dualRun]
      rw [h0.1]
    · simp only [dualRun]
      exact h0.2

/-- A dual-model oracle stream: step 1 raises in capture, step 2 decides the
task finished. -/
def c10Os : Nat → DualOracle
  | 1 => { capture := .error "boom", describe := .error "x",
           decide := .error "x", execute := .error "x" }
  | _ => { capture := .ok "SHOT",
           describe := .ok { description := "scr", currentApp := "app", elements := [] },
           decide := .ok { action := "", target := "", content := "",
                           reasoning := "all done", finished := true },
           execute := .error "unused" }

/-- An all-failing dual-model oracle stream. -/
def c10BadOs : Nat → DualOracle :=
  fun _ => { capture := .error "boom", describe := .error "x",
             decide := .error "x", execute := .error "x" }

/--
C10: an exception at any stage of a dual-model step is captured into the
step result's `error` field with `finished = false` and `success = false`;
such a step does not terminate the run — the loop counts it and proceeds to
the next step until finish or max_steps.
-/
theorem c10_dual_error_resilience :
    (∀ (o : DualOracle) (n : Nat),
      (∀ e, o.capture = .error e → (dualExecuteStep o n).2 = dualErrResult n e) ∧
      (∀ shot e, o.capture = .ok shot → o.describe = .error e →
        (dualExecuteStep o n).2 = dualErrResult n e) ∧
      (∀ shot sd e, o.capture = .ok shot → o.describe = .ok sd →
        o.decide = .error e → (dualExecuteStep o n).2 = dualErrResult n e) ∧
      (∀ shot sd d e, o.capture = .ok shot → o.describe = .ok sd →
        o.decide = .ok d → d.finished = false → o.execute = .error e →
        (dualExecuteStep o n).2 = dualErrResult n e) ∧
      ((dualExecuteStep o n).2.error.isSome →
        (dualExecuteStep o n).2.success = false ∧
        (dualExecuteStep o n).2.finished = false ∧
        (dualExecuteStep o n).2.step = n)) ∧
    (∀ os : Nat → DualOracle,
      (∀ (maxSteps : Nat) (e shot : String) (sd : ScreenDescription)
          (d : Decision), 2 ≤ maxSteps →
        (os 1).capture = .error e →
        (os 2).capture = .ok shot → (os 2).describe = .ok sd →
        (os 2).decide = .ok d → d.finished = true →
        dualRun os maxSteps =
          { success := true, message := d.reasoning, steps := 2,
            results := [dualErrResult 1 e,
              { step := 2, success := true, finished := true,
                decision := some d, screenDesc := some sd }] }) ∧
      (∀ maxSteps : Nat,
        (∀ n, (dualExecuteStep (os n) n).2.error.isSome) →
        (dualRun os maxSteps).success = false ∧
        (dualRun os maxSteps).steps = maxSteps)) :=
  ⟨dual_step_error_captured, dual_run_survives⟩

/-- Witness for `c10_dual_error_resilience` on concrete oracle streams: the
step-1 capture failure is captured, the run finishes at step 2; the
all-failing stream runs to max_steps. -/
theorem c10_dual_error_resilience_witness :
    (dualExecuteStep (c10Os 1) 1).2 = dualErrResult 1 "boom" ∧
    dualRun c10Os 5 =
      { success := true, message := "all done", steps := 2,
        results := [dualErrResult 1 "boom",
          { step := 2, success := true, finished := true,
            decision := some { action := "", target := "", content := "",
                               reasoning := "all done", finished := true },
            screenDesc := some { description := "scr", currentApp := "app",
                                 elements := [] } }] } ∧
    (dualRun c10BadOs 3).success = false ∧ (dualRun c10BadOs 3).steps = 3 :=
  ⟨(c10_dual_error_resilience.1 (c10Os 1) 1).1 "boom" rfl,
   (c10_dual_error_resilience.2 c10Os).1 5 "boom" "SHOT" _ _ (by decide)
     rfl rfl rfl rfl rfl,
   (c10_dual_error_resilience.2 c10BadOs).2 3 (fun n => by
     simp only [c10BadOs, dualExecuteStep]
     rfl)⟩

end AutoGLM
